import Mathlib

/-!
Shallow embedding of the session-orchestration core of a rendered-page
capture service (FastAPI + Selenium + a BrowserMob forward proxy).

The embedding covers, from `app/library/selenium_utils.py`:
the five-stage readiness pipeline `SeleniumBrowser._wait_until_page_ready`
(`runStages` / `wait_until_page_ready`, driven by an abstract stage
environment `StageExec` describing, per stage and remaining budget, whether
the stage's blocking wait returns, times out, or raises); the quiet-window
polling loop of `wait_network_idle` (`runStopCondition` over a trace of
observed in-flight counter samples); the navigation/cookie sequence of
`SeleniumBrowser.get` (a trace of driver commands); the teardown methods
`SeleniumBrowser.close`, `ProxyServer.close` and `ProxyClient.close`
(`app/library/proxy_utils.py`) as explicit state machines recording the
underlying calls made and the exception, if any, that escapes; driver
creation `HeadlessChrome._create_driver` (event trace); and the identity
overrides of `StealthChrome._create_driver` (`stealth_cdp_override`).
From `app/api/routers/browser.py` it covers the error surfacing of the
`/browser/html` endpoint (`html_route`), using the error model of
`app/library/errors.py` (`ErrorResponse`).

Time is modelled by rationals (seconds); machine floats in the source only
ever hold small clock differences, so field arithmetic is the intended
semantics.  Python exceptions are values of `PyExc`; Python truthiness of
optional strings / lists / numbers is made explicit (`pyOrStr`, `pyOrQ`,
`headersTruthy`).
-/

/-- Python exceptions that matter to the embedded code: Selenium's
`TimeoutException` (with its message) and any other exception. -/
inductive PyExc
  | timeout (msg : String)
  | other (msg : String)
  deriving DecidableEq

/-- Python `x or default` for an optional string (`None` and `""` are falsy). -/
def pyOrStr : Option String → String → String
  | none, d => d
  | some s, d => if s = "" then d else s

/-- Python truthiness of an optional string (`None` and `""` are falsy). -/
def pyTruthyStr : Option String → Bool
  | none => false
  | some s => s != ""

/-- Python `x or default` for an optional number (`None` and `0`/`0.0` are falsy). -/
def pyOrQ : Option ℚ → ℚ → ℚ
  | none, d => d
  | some t, d => if t = 0 then d else t

/-- `_DEFAULT_TIMEOUT = int(os.getenv("PAGELOAD_TIMEOUT", "15"))`
(selenium_utils.py line 35), as a function of the optional environment value. -/
def DEFAULT_TIMEOUT (pageload_timeout_env : Option ℕ) : ℕ :=
  match pageload_timeout_env with
  | some v => v
  | none => 15

/-- `self._timeout = timeout or _DEFAULT_TIMEOUT` in `SeleniumBrowser.__init__`
(selenium_utils.py line 57). -/
def SeleniumBrowser.init_timeout (timeout : Option ℚ) (dflt : ℚ) : ℚ :=
  pyOrQ timeout dflt

/-! ## Readiness pipeline (`SeleniumBrowser._wait_until_page_ready`) -/

/-- What one stage's wait function does when invoked with some remaining
budget: return normally after `elapsed` seconds, raise `TimeoutException`
(a `WebDriverWait` that ran out of its slice; Selenium's default message is
empty), or raise some other exception.  This is the abstract environment a
readiness wait runs against. -/
inductive StageExec
  | ok (elapsed : ℚ)
  | timedOut (elapsed : ℚ)
  | failed (msg : String) (elapsed : ℚ)

/-- The message of the exception raised when the shared budget is exhausted
before a stage starts: `f'Timeout before step "{name}"'`
(selenium_utils.py line 148). -/
def timeout_before_msg (name : String) : String :=
  "Timeout before step \"" ++ name ++ "\""

/-- The stage loop of `_wait_until_page_ready` (selenium_utils.py lines
144-150): for each named stage, recompute `remaining() = max(0, deadline -
now)`; if it is `≤ 0`, raise a `TimeoutException` naming the stage without
invoking its wait function; otherwise invoke the wait function with the
remaining budget.  Returns the list of stage names whose wait function was
invoked, in invocation order, together with the result (`ok` or the
exception that escaped). -/
def runStages (behavior : ℕ → ℚ → StageExec) (deadline : ℚ) :
    List String → ℕ → ℚ → List String × Except PyExc Unit
  | [], _, _ => ([], Except.ok ())
  | name :: rest, i, now =>
    if max 0 (deadline - now) ≤ 0 then
      ([], Except.error (PyExc.timeout (timeout_before_msg name)))
    else
      match behavior i (max 0 (deadline - now)) with
      | StageExec.ok d =>
        let r := runStages behavior deadline rest (i + 1) (now + d)
        (name :: r.1, r.2)
      | StageExec.timedOut _ => ([name], Except.error (PyExc.timeout ""))
      | StageExec.failed m _ => ([name], Except.error (PyExc.other m))

/-- The fixed stage list of `_wait_until_page_ready` (selenium_utils.py
lines 136-142): readyState, loadEventEnd, network idle, DOM quiet, next
paint. -/
def stepNames : List String :=
  ["readyState", "loadEventEnd", "network idle", "DOM quiet", "next paint"]

/-- `_wait_until_page_ready`: capture `start` from the monotonic clock once,
set `deadline = start + timeout`, then run the five stages in order.  The
`try/except` blocks only log and re-raise, so the escaping exception is
unchanged. -/
def wait_until_page_ready (behavior : ℕ → ℚ → StageExec) (start timeout : ℚ) :
    List String × Except PyExc Unit :=
  runStages behavior (start + timeout) stepNames 0 start

/-! ## Error surfacing of the `/browser/html` endpoint -/

/-- The JSON body produced for a `BaseError` by `ErrorHandler.base`
(`errors.py` `BaseError.to_dict`): code, name, description. -/
structure ErrorResponse where
  code : ℕ
  name : String
  description : String
  deriving DecidableEq

/-- `InternalError(description)` from errors.py: HTTP 500, name
`INTERNAL_ERROR`. -/
def internalError (description : String) : ErrorResponse :=
  ⟨500, "INTERNAL_ERROR", description⟩

/-- The message of the error the `html` route raises for any
`TimeoutException` (browser.py line 65). -/
def page_timeout_message : String := "Page took too much time to load"

/-- Error surfacing of the `html` route (browser.py lines 59-70): a
`TimeoutException` from the readiness wait becomes
`InternalError('Page took too much time to load')`; any other exception is
re-raised and the generic handler wraps it as `InternalError(str(exc))`;
on success the page source is returned. -/
def html_route (waitResult : List String × Except PyExc Unit) (page_source : String) :
    Except ErrorResponse String :=
  match waitResult.2 with
  | Except.ok _ => Except.ok page_source
  | Except.error (PyExc.timeout _) => Except.error (internalError page_timeout_message)
  | Except.error (PyExc.other m) => Except.error (internalError m)

/-- Whether `needle` starts the list `hay` (character-level helper for
substring tests on messages). -/
def startsWithChars : List Char → List Char → Bool
  | [], _ => true
  | _ :: _, [] => false
  | n :: ns, h :: hs => n == h && startsWithChars ns hs

/-- Whether `needle` occurs somewhere in `hay`. -/
def hasSubChars (needle : List Char) : List Char → Bool
  | [] => needle.isEmpty
  | h :: hs => startsWithChars needle (h :: hs) || hasSubChars needle hs

/-- Whether the string `needle` occurs as a substring of `hay`. -/
def strContains (hay needle : String) : Bool :=
  hasSubChars needle.data hay.data

/-! ## Network-idle quiet window (`wait_network_idle`) -/

/-- Default `idle_ms` parameter of `wait_network_idle`
(selenium_utils.py line 291). -/
def idle_ms_default : ℕ := 600

/-- `idle_s = idle_ms / 1000.0` for the default `idle_ms`. -/
def idle_s_default : ℚ := (idle_ms_default : ℚ) / 1000

/-- The `stop_condition` polling loop of `wait_network_idle`
(selenium_utils.py lines 326-342) run over the successive observations
`(now, inflight)` it makes: on a zero observation, start the quiet window
at `now` if none is running and succeed once `now - quiet_start ≥ idle_s`;
on a nonzero observation, clear the quiet window.  Returns the observation
time at which the stage declared idle, or `none` if it never did (the
surrounding `WebDriverWait` then times out). -/
def runStopCondition (idleS : ℚ) : Option ℚ → List (ℚ × ℕ) → Option ℚ
  | _, [] => none
  | quiet_start, (now, inflight) :: rest =>
    if inflight = 0 then
      if now - quiet_start.getD now ≥ idleS then some now
      else runStopCondition idleS (some (quiet_start.getD now)) rest
    else runStopCondition idleS none rest

/-- The first `WebDriverWait` of `wait_network_idle` (selenium_utils.py
lines 322-324): poll until an observation shows zero in-flight requests;
return the remaining observations, or `none` if no observation is ever zero
(that `WebDriverWait` then times out). -/
def waitUntilZero : List (ℚ × ℕ) → Option (List (ℚ × ℕ))
  | [] => none
  | (_, inflight) :: rest => if inflight = 0 then some rest else waitUntilZero rest

/-- `wait_network_idle` over the trace of counter observations: the first
`WebDriverWait` blocks until the first observation with zero in-flight
requests, then the second `WebDriverWait` runs `stop_condition` over the
remaining observations with no quiet window running. -/
def wait_network_idle (idleS : ℚ) (samples : List (ℚ × ℕ)) : Option ℚ :=
  match waitUntilZero samples with
  | none => none
  | some rest => runStopCondition idleS none rest

/-! ## Navigation / cookie sequence (`SeleniumBrowser.get`) -/

/-- Driver commands issued by `SeleniumBrowser.get`, in order. -/
inductive DriverCmd
  | navigate (url : String)
  | add_cookie (cookie : List (String × String))
  | waitReady (timeout : ℚ)
  deriving DecidableEq

/-! ## Teardown state machines (`close` methods) -/

/-- Outcome of an underlying teardown call (`driver.quit()`,
`server.stop()`, `client.close()`): success, a `WebDriverException`, or any
other exception. -/
inductive UnderlyingOutcome
  | ok
  | webdriverError (msg : String)
  | otherError (msg : String)
  deriving DecidableEq

/-- Externally observable teardown effects. -/
inductive TeardownEffect
  | clientCloseCall
  | serverStopCall
  | driverQuitCall
  | errorLogged
  deriving DecidableEq

/-- State of a `ProxyClient` (proxy_utils.py): its `_client` field. -/
structure ProxyClient where
  client : Option Unit
  deriving DecidableEq

/-- State of a `ProxyServer` (proxy_utils.py): its `_server` field. -/
structure ProxyServer where
  server : Option Unit
  deriving DecidableEq

/-- State of a `SeleniumBrowser` (selenium_utils.py): its `_proxy` and
`_driver` fields. -/
structure SeleniumBrowser where
  proxy : Option ProxyClient
  driver : Option Unit
  deriving DecidableEq

/-- `ProxyClient.close` (proxy_utils.py lines 93-102): if `_client` is set,
call the underlying close, swallow any exception (`except Exception`,
logging it), and in `finally` set `_client = None`.  Returns the new state,
the effects, and the exception escaping the method (always `none`). -/
def ProxyClient.close (u : UnderlyingOutcome) (s : ProxyClient) :
    ProxyClient × List TeardownEffect × Option PyExc :=
  match s.client with
  | none => (⟨none⟩, [], none)
  | some _ =>
    match u with
    | UnderlyingOutcome.ok => (⟨none⟩, [TeardownEffect.clientCloseCall], none)
    | UnderlyingOutcome.webdriverError _ =>
      (⟨none⟩, [TeardownEffect.clientCloseCall, TeardownEffect.errorLogged], none)
    | UnderlyingOutcome.otherError _ =>
      (⟨none⟩, [TeardownEffect.clientCloseCall, TeardownEffect.errorLogged], none)

/-- `ProxyServer.close` (proxy_utils.py lines 52-65): if `_server` is set,
call `stop()`, swallow any exception (`except Exception`, logging it), and
in `finally` set `_server = None` and clear the process-wide singleton
`_proxy_server`.  If `_server` is already `None`, nothing happens (the
singleton is left untouched).  Returns (new state, new singleton, effects,
escaping exception). -/
def ProxyServer.close (u : UnderlyingOutcome) (s : ProxyServer) (g : Option ProxyServer) :
    ProxyServer × Option ProxyServer × List TeardownEffect × Option PyExc :=
  match s.server with
  | none => (⟨none⟩, g, [], none)
  | some _ =>
    match u with
    | UnderlyingOutcome.ok => (⟨none⟩, none, [TeardownEffect.serverStopCall], none)
    | UnderlyingOutcome.webdriverError _ =>
      (⟨none⟩, none, [TeardownEffect.serverStopCall, TeardownEffect.errorLogged], none)
    | UnderlyingOutcome.otherError _ =>
      (⟨none⟩, none, [TeardownEffect.serverStopCall, TeardownEffect.errorLogged], none)

/-- `SeleniumBrowser.close` (selenium_utils.py lines 82-101): first, if
`_proxy` is set, close it (its own `close` swallows every exception, and
the surrounding `except Exception` would swallow one anyway) and in
`finally` set `_proxy = None`; then, if `_driver` is set, call
`driver.quit()`, catching only `WebDriverException` (logged and swallowed);
any other exception escapes the method, but the `finally` clause has
already set `_driver = None`.  `uProxy` and `uQuit` are the outcomes of the
underlying proxy-close and quit calls. -/
def SeleniumBrowser.close (uProxy uQuit : UnderlyingOutcome) (s : SeleniumBrowser) :
    SeleniumBrowser × List TeardownEffect × Option PyExc :=
  let proxyEff : List TeardownEffect :=
    match s.proxy with
    | none => []
    | some pc => (ProxyClient.close uProxy pc).2.1
  let driverPart : List TeardownEffect × Option PyExc :=
    match s.driver with
    | none => ([], none)
    | some _ =>
      match uQuit with
      | UnderlyingOutcome.ok => ([TeardownEffect.driverQuitCall], none)
      | UnderlyingOutcome.webdriverError _ =>
        ([TeardownEffect.driverQuitCall, TeardownEffect.errorLogged], none)
      | UnderlyingOutcome.otherError m =>
        ([TeardownEffect.driverQuitCall], some (PyExc.other m))
  (⟨none, none⟩, proxyEff ++ driverPart.1, driverPart.2)

/-- Calling `close()` `n` times in a row, accumulating the observable
effects (the escaping exception of each call is covered by
`SeleniumBrowser.close` itself). -/
def SeleniumBrowser.closeN (uProxy uQuit : UnderlyingOutcome) :
    ℕ → SeleniumBrowser → SeleniumBrowser × List TeardownEffect
  | 0, s => (s, [])
  | Nat.succ n, s =>
    let r := SeleniumBrowser.close uProxy uQuit s
    let rest := SeleniumBrowser.closeN uProxy uQuit n r.1
    (rest.1, r.2.1 ++ rest.2)

/-- `SeleniumBrowser.get(url)` (selenium_utils.py lines 103-113) as the
trace of driver commands it issues: navigate; if the cookie list is truthy
and non-empty, add each cookie then navigate to the same URL again; then
run the readiness wait with the session timeout. -/
def SeleniumBrowser.get (cookies : Option (List (List (String × String))))
    (tmo : ℚ) (url : String) : List DriverCmd :=
  DriverCmd.navigate url ::
    ((match cookies with
      | none => []
      | some cs =>
        if 0 < cs.length then cs.map DriverCmd.add_cookie ++ [DriverCmd.navigate url]
        else [])
      ++ [DriverCmd.waitReady tmo])

/-! ## Driver creation (`HeadlessChrome._create_driver`) -/

/-- Python truthiness of the optional header dict (`if self._headers:`):
`None` and the empty dict are falsy. -/
def headersTruthy : Option (List (String × String)) → Bool
  | none => false
  | some hs => !hs.isEmpty

/-- `get_proxy_server()` (proxy_utils.py lines 23-25): read the
process-wide singleton. -/
def get_proxy_server (g : Option ProxyServer) : Option ProxyServer := g

/-- `ProxyServer.new_client` (proxy_utils.py lines 39-43): error if the
server was closed, otherwise a fresh client. -/
def ProxyServer.new_client (s : ProxyServer) : Except PyExc ProxyClient :=
  match s.server with
  | none => Except.error (PyExc.other "Proxy server not initialized or closed")
  | some _ => Except.ok ⟨some ()⟩

/-- Observable events of driver creation. -/
inductive CreateEvent
  | proxyClientCreated
  | engineLaunched
  deriving DecidableEq

/-- `HeadlessChrome._create_driver` (selenium_utils.py lines 163-196) as an
event trace: when the header dict is truthy, look up the proxy singleton
(raising `'proxy server not available'` if absent), obtain a client from it
(which raises if the server was stopped), and only then launch
`webdriver.Chrome`; without headers the engine is launched directly. -/
def HeadlessChrome.create_driver (headers : Option (List (String × String)))
    (g : Option ProxyServer) : List CreateEvent × Except PyExc Unit :=
  if headersTruthy headers then
    match get_proxy_server g with
    | none => ([], Except.error (PyExc.other "proxy server not available"))
    | some ps =>
      match ps.new_client with
      | Except.error e => ([], Except.error e)
      | Except.ok _ =>
        ([CreateEvent.proxyClientCreated, CreateEvent.engineLaunched], Except.ok ())
  else ([CreateEvent.engineLaunched], Except.ok ())

/-! ## Stealth identity overrides (`StealthChrome._create_driver`) -/

/-- `navigator.languages` as set by the injected stealth script
(selenium_utils.py line 241). -/
def stealth_js_languages : List String := ["pt-BR", "pt", "en-US", "en"]

/-- `navigator.platform` as set by the injected stealth script
(selenium_utils.py line 242). -/
def stealth_js_platform : String := "Linux x86_64"

/-- Fallback `acceptLanguage` for `Network.setUserAgentOverride`
(selenium_utils.py line 265). -/
def default_accept_language : String := "pt-BR,pt;q=0.9,en-US;q=0.8,en;q=0.7"

/-- The arguments passed to `Network.setUserAgentOverride`
(selenium_utils.py lines 263-269): the `platform` key is present only when
no caller-supplied User-Agent is in effect. -/
structure CdpOverrideArgs where
  userAgent : String
  acceptLanguage : String
  platform : Option String
  deriving DecidableEq

/-- Python `dict.get(k, None)` on the header map (exact, case-sensitive
key lookup). -/
def dict_get (hs : List (String × String)) (k : String) : Option String :=
  (hs.find? (fun p => p.1 == k)).map (fun p => p.2)

/-- The header lookups of `StealthChrome._create_driver` (selenium_utils.py
lines 258-261): `user_agent`/`accept_language` stay `None` unless the
header dict is truthy. -/
def stealth_header_get (headers : Option (List (String × String))) (k : String) :
    Option String :=
  match headers with
  | some hs => if hs.isEmpty then none else dict_get hs k
  | none => none

/-- `cdp_override_args` as built by `StealthChrome._create_driver`
(selenium_utils.py lines 263-269): prefer the caller-supplied User-Agent /
Accept-Language (Python `or`), fall back to the live `navigator.userAgent`
and the fixed default accept-language; add the fixed platform override only
when no caller User-Agent is in effect. -/
def stealth_cdp_override (headers : Option (List (String × String)))
    (navigatorUserAgent : String) : CdpOverrideArgs :=
  let ua := stealth_header_get headers "User-Agent"
  let al := stealth_header_get headers "Accept-Language"
  ⟨pyOrStr ua navigatorUserAgent,
   pyOrStr al default_accept_language,
   if pyTruthyStr ua then none else some "Linux x86_64"⟩

/-- Splitting a character list on a separator character (used to read the
language codes out of an Accept-Language string). -/
def splitChars (sep : Char) : List Char → List (List Char)
  | [] => [[]]
  | c :: cs =>
    let r := splitChars sep cs
    if c == sep then [] :: r
    else
      match r with
      | [] => [[c]]
      | g :: gs => (c :: g) :: gs

/-- The language codes listed in an Accept-Language header value: split on
commas and drop the `;q=...` weight of each entry. -/
def accept_language_codes (al : String) : List String :=
  (splitChars ',' al.data).map (fun cs => String.mk ((splitChars ';' cs).headD cs))

/-- Agreement between the script-visible identity (the fixed
`navigator.languages` / `navigator.platform` from the injected stealth
script) and the protocol-level overrides: the accept-language codes issued
over the protocol list exactly the script's language list, and the
protocol-level platform override (when issued) is the script's platform. -/
def identity_consistent (args : CdpOverrideArgs) : Bool :=
  (accept_language_codes args.acceptLanguage == stealth_js_languages) &&
  (match args.platform with
   | none => true
   | some p => p == stealth_js_platform)

/-! ## Concrete inputs used by witnesses and counterexamples -/

/-- A stage environment in which the first stage's own wait times out. -/
def behStage0TimesOut : ℕ → ℚ → StageExec :=
  fun i _ => if i = 0 then StageExec.timedOut 1 else StageExec.ok 0

/-- A stage environment in which the third stage (network idle)'s own wait
times out. -/
def behStage2TimesOut : ℕ → ℚ → StageExec :=
  fun i _ => if i = 2 then StageExec.timedOut 1 else StageExec.ok 0

/-- An in-flight counter trace: busy, then quiet for half a second, then a
new in-flight request, then a fresh continuous quiet window of 600 ms. -/
def netSamplesReset : List (ℚ × ℕ) :=
  [(0, 1), (1/10, 0), (6/10, 0), (7/10, 2), (8/10, 0), (1, 0), (14/10, 0)]

/-! ## Helper lemmas about the readiness pipeline -/

/-- If the deadline has passed when a stage comes up, the loop raises a
`TimeoutException` naming that stage and invokes no further wait function. -/
theorem runStages_exhausted (behavior : ℕ → ℚ → StageExec) (deadline now : ℚ)
    (name : String) (rest : List String) (i : ℕ) (h : deadline ≤ now) :
    runStages behavior deadline (name :: rest) i now =
      ([], Except.error (PyExc.timeout (timeout_before_msg name))) := by
  have hmax : max 0 (deadline - now) ≤ 0 := max_le le_rfl (by linarith)
  simp [runStages, hmax]

/-- If a stage's own wait times out (budget still positive when it starts),
the loop stops there with Selenium's `TimeoutException`, whose message is
empty. -/
theorem runStages_stage_timeout (behavior : ℕ → ℚ → StageExec) (deadline now : ℚ)
    (name : String) (rest : List String) (i : ℕ) (d : ℚ)
    (hb : ¬ max 0 (deadline - now) ≤ 0)
    (he : behavior i (max 0 (deadline - now)) = StageExec.timedOut d) :
    runStages behavior deadline (name :: rest) i now =
      ([name], Except.error (PyExc.timeout "")) := by
  simp [runStages, hb, he]

/-- Structure of one run of the stage loop: the trace of invoked stages is
an initial segment of the stage list, equal to the whole list whenever the
loop succeeds; and whenever the loop fails there is a failing stage index
`j` such that running only the stages strictly before `j` succeeds, running
the stages up to and including `j` already produces the whole run's trace
and error, and the trace stops at `j` (equal to the first `j` names when
stage `j`'s wait was not invoked, or the first `j + 1` names when it was
invoked and raised) — so the stages after the failing one are never
evaluated. -/
theorem runStages_abort (behavior : ℕ → ℚ → StageExec) (deadline : ℚ) :
    ∀ (names : List String) (i : ℕ) (now : ℚ),
      ∃ k, k ≤ names.length ∧
        (runStages behavior deadline names i now).1 = names.take k ∧
        ((runStages behavior deadline names i now).2 = Except.ok () → k = names.length) ∧
        (∀ e, (runStages behavior deadline names i now).2 = Except.error e →
          ∃ j, j < names.length ∧
            runStages behavior deadline (names.take j) i now =
              (names.take j, Except.ok ()) ∧
            runStages behavior deadline (names.take (j + 1)) i now =
              ((runStages behavior deadline names i now).1, Except.error e) ∧
            ((runStages behavior deadline names i now).1 = names.take j ∨
             (runStages behavior deadline names i now).1 = names.take (j + 1))) := by
  intro names
  induction names with
  | nil =>
    intro i now
    refine ⟨0, Nat.le_refl 0, rfl, fun _ => rfl, ?_⟩
    intro e he
    simp [runStages] at he
  | cons name rest ih =>
    intro i now
    by_cases hb : max 0 (deadline - now) ≤ 0
    · have hrun : runStages behavior deadline (name :: rest) i now =
          ([], Except.error (PyExc.timeout (timeout_before_msg name))) := by
        simp [runStages, hb]
      refine ⟨0, Nat.zero_le _, by rw [hrun]; rfl, ?_, ?_⟩
      · intro hok
        rw [hrun] at hok
        exact absurd hok (by simp)
      · intro e he
        rw [hrun] at he
        simp only [Except.error.injEq] at he
        subst he
        refine ⟨0, by simp, by simp [runStages], ?_, Or.inl (by rw [hrun]; rfl)⟩
        rw [hrun]
        simp [runStages, hb]
    · cases he : behavior i (max 0 (deadline - now)) with
      | ok d =>
        obtain ⟨k, hk, htr, hok, herr⟩ := ih (i + 1) (now + d)
        have hcons : runStages behavior deadline (name :: rest) i now =
            (name :: (runStages behavior deadline rest (i + 1) (now + d)).1,
             (runStages behavior deadline rest (i + 1) (now + d)).2) := by
          simp [runStages, hb, he]
        refine ⟨k + 1, Nat.succ_le_succ hk, ?_, ?_, ?_⟩
        · rw [hcons]
          simp [htr]
        · intro h2
          rw [hcons] at h2
          simp only at h2
          have hkk := hok h2
          simp [hkk]
        · intro e he2
          rw [hcons] at he2
          simp only at he2
          obtain ⟨j, hj, hpj, hpj1, hor⟩ := herr e he2
          have hconsj : runStages behavior deadline (name :: rest.take j) i now =
              (name :: (runStages behavior deadline (rest.take j) (i + 1) (now + d)).1,
               (runStages behavior deadline (rest.take j) (i + 1) (now + d)).2) := by
            simp [runStages, hb, he]
          have hconsj1 : runStages behavior deadline (name :: rest.take (j + 1)) i now =
              (name :: (runStages behavior deadline (rest.take (j + 1)) (i + 1) (now + d)).1,
               (runStages behavior deadline (rest.take (j + 1)) (i + 1) (now + d)).2) := by
            simp [runStages, hb, he]
          refine ⟨j + 1, Nat.succ_lt_succ hj, ?_, ?_, ?_⟩
          · rw [List.take_succ_cons, hconsj, hpj]
          · rw [List.take_succ_cons, hconsj1, hpj1, hcons]
          · rw [hcons]
            rcases hor with hor | hor
            · exact Or.inl (by rw [List.take_succ_cons, hor])
            · exact Or.inr (by rw [List.take_succ_cons, hor])
      | timedOut d =>
        have hrun : runStages behavior deadline (name :: rest) i now =
            ([name], Except.error (PyExc.timeout "")) := by
          simp [runStages, hb, he]
        refine ⟨1, Nat.succ_le_succ (Nat.zero_le _), by rw [hrun]; simp, ?_, ?_⟩
        · intro hok
          rw [hrun] at hok
          exact absurd hok (by simp)
        · intro e he2
          rw [hrun] at he2
          simp only [Except.error.injEq] at he2
          subst he2
          refine ⟨0, by simp, by simp [runStages], ?_, Or.inr (by rw [hrun]; simp)⟩
          rw [hrun]
          simp [runStages, hb, he]
      | failed m d =>
        have hrun : runStages behavior deadline (name :: rest) i now =
            ([name], Except.error (PyExc.other m)) := by
          simp [runStages, hb, he]
        refine ⟨1, Nat.succ_le_succ (Nat.zero_le _), by rw [hrun]; simp, ?_, ?_⟩
        · intro hok
          rw [hrun] at hok
          exact absurd hok (by simp)
        · intro e he2
          rw [hrun] at he2
          simp only [Except.error.injEq] at he2
          subst he2
          refine ⟨0, by simp, by simp [runStages], ?_, Or.inr (by rw [hrun]; simp)⟩
          rw [hrun]
          simp [runStages, hb, he]

/-- Claim C1: every readiness wait evaluates the five stages in exactly the
fixed order readyState (document ready), loadEventEnd (load event settled),
network idle, DOM quiet, next paint (next paint settled): the trace of
invoked stage waits is always an initial segment of that fixed list and on
success is the whole list; and whenever the wait fails there is a failing
stage index `j < 5` such that the stages strictly before `j` all ran and
succeeded (running them alone succeeds), the whole wait's trace and error
are already produced by running only the stages up to and including `j`,
and the trace stops at stage `j` (the first `j` names when stage `j` could
not start, or the first `j + 1` names when its wait was invoked and
raised) — so no stage is skipped or reordered and the stages after a
failing stage are never evaluated. -/
theorem readiness_stages_fixed_order (behavior : ℕ → ℚ → StageExec) (start timeout : ℚ) :
    stepNames = ["readyState", "loadEventEnd", "network idle", "DOM quiet", "next paint"] ∧
    ∃ k, k ≤ 5 ∧
      (wait_until_page_ready behavior start timeout).1 = stepNames.take k ∧
      ((wait_until_page_ready behavior start timeout).2 = Except.ok () →
        (wait_until_page_ready behavior start timeout).1 = stepNames) ∧
      (∀ e, (wait_until_page_ready behavior start timeout).2 = Except.error e →
        ∃ j, j < 5 ∧
          runStages behavior (start + timeout) (stepNames.take j) 0 start =
            (stepNames.take j, Except.ok ()) ∧
          runStages behavior (start + timeout) (stepNames.take (j + 1)) 0 start =
            ((wait_until_page_ready behavior start timeout).1, Except.error e) ∧
          ((wait_until_page_ready behavior start timeout).1 = stepNames.take j ∨
           (wait_until_page_ready behavior start timeout).1 = stepNames.take (j + 1))) := by
  refine ⟨rfl, ?_⟩
  obtain ⟨k, hk, htr, hok, herr⟩ := runStages_abort behavior (start + timeout) stepNames 0 start
  simp only [wait_until_page_ready]
  refine ⟨k, by simpa [stepNames] using hk, htr, fun h => ?_, fun e he => ?_⟩
  · rw [htr, hok h]
    simp
  · obtain ⟨j, hj, h1, h2, h3⟩ := herr e he
    exact ⟨j, by simpa [stepNames] using hj, h1, h2, h3⟩

/-- Witness for `readiness_stages_fixed_order` at a concrete environment in
which every stage wait returns immediately within a 5-second budget. -/
theorem readiness_stages_fixed_order_witness :
    stepNames = ["readyState", "loadEventEnd", "network idle", "DOM quiet", "next paint"] ∧
    ∃ k, k ≤ 5 ∧
      (wait_until_page_ready (fun _ _ => StageExec.ok 0) 0 5).1 = stepNames.take k ∧
      ((wait_until_page_ready (fun _ _ => StageExec.ok 0) 0 5).2 = Except.ok () →
        (wait_until_page_ready (fun _ _ => StageExec.ok 0) 0 5).1 = stepNames) ∧
      (∀ e, (wait_until_page_ready (fun _ _ => StageExec.ok 0) 0 5).2 = Except.error e →
        ∃ j, j < 5 ∧
          runStages (fun _ _ => StageExec.ok 0) (0 + 5) (stepNames.take j) 0 0 =
            (stepNames.take j, Except.ok ()) ∧
          runStages (fun _ _ => StageExec.ok 0) (0 + 5) (stepNames.take (j + 1)) 0 0 =
            ((wait_until_page_ready (fun _ _ => StageExec.ok 0) 0 5).1, Except.error e) ∧
          ((wait_until_page_ready (fun _ _ => StageExec.ok 0) 0 5).1 = stepNames.take j ∨
           (wait_until_page_ready (fun _ _ => StageExec.ok 0) 0 5).1 = stepNames.take (j + 1))) :=
  readiness_stages_fixed_order (fun _ _ => StageExec.ok 0) 0 5

/-- Claim C2: for every readiness wait and every stage, if the shared
remaining budget (deadline fixed once at invocation, monotonic start plus
the session timeout) is already `≤ 0` when the stage comes up, the whole
wait fails with a `TimeoutException` whose message names that stage, and
that stage's wait function is never invoked (the invocation trace
contributed from that point is empty); in particular a wait whose whole
budget is exhausted at the start fails naming the first stage, readyState. -/
theorem timeout_before_stage_names_stage (behavior : ℕ → ℚ → StageExec)
    (deadline now : ℚ) (name : String) (rest : List String) (i : ℕ)
    (h : deadline ≤ now) :
    runStages behavior deadline (name :: rest) i now =
      ([], Except.error (PyExc.timeout (timeout_before_msg name))) ∧
    timeout_before_msg name = "Timeout before step \"" ++ name ++ "\"" ∧
    wait_until_page_ready behavior now (deadline - now) =
      ([], Except.error (PyExc.timeout (timeout_before_msg "readyState"))) := by
  refine ⟨runStages_exhausted behavior deadline now name rest i h, rfl, ?_⟩
  show runStages behavior (now + (deadline - now)) stepNames 0 now = _
  rw [show stepNames = "readyState" ::
        ["loadEventEnd", "network idle", "DOM quiet", "next paint"] from rfl]
  exact runStages_exhausted behavior _ now "readyState" _ 0 (by linarith)

/-- Witness for `timeout_before_stage_names_stage`: a wait whose deadline
already passed before the network-idle stage fails naming it, without
invoking it. -/
theorem timeout_before_stage_names_stage_witness :
    runStages (fun _ _ => StageExec.ok 0) 0 ["network idle"] 2 1 =
      ([], Except.error (PyExc.timeout (timeout_before_msg "network idle"))) ∧
    timeout_before_msg "network idle" = "Timeout before step \"network idle\"" ∧
    wait_until_page_ready (fun _ _ => StageExec.ok 0) 1 (0 - 1) =
      ([], Except.error (PyExc.timeout (timeout_before_msg "readyState"))) :=
  timeout_before_stage_names_stage (fun _ _ => StageExec.ok 0) 0 1 "network idle" [] 2
    (by norm_num)

/-- Counterexample to claim C3 as stated: when a stage's own wait exceeds
its slice of the budget (here the readyState wait, and separately the
network-idle wait, each within a 5-second session budget), the raised
exception is a `TimeoutException` with an empty message, and the failure
surfaced by the `html` route is the identical generic
`InternalError("Page took too much time to load")` in both cases — the
failure surfaced to the request does not name which stage failed. -/
theorem stage_timeout_not_surfaced_cex :
    (wait_until_page_ready behStage0TimesOut 0 5).1 = ["readyState"] ∧
    (wait_until_page_ready behStage0TimesOut 0 5).2 = Except.error (PyExc.timeout "") ∧
    (wait_until_page_ready behStage2TimesOut 0 5).1 =
      ["readyState", "loadEventEnd", "network idle"] ∧
    html_route (wait_until_page_ready behStage0TimesOut 0 5) "page" =
      Except.error (internalError page_timeout_message) ∧
    html_route (wait_until_page_ready behStage2TimesOut 0 5) "page" =
      Except.error (internalError page_timeout_message) ∧
    strContains page_timeout_message "readyState" = false ∧
    strContains page_timeout_message "network idle" = false ∧
    strContains (internalError page_timeout_message).description "readyState" = false := by
  refine ⟨?_, ?_, ?_, ?_, ?_, rfl, rfl, rfl⟩ <;>
    norm_num [wait_until_page_ready, runStages, stepNames, behStage0TimesOut,
      behStage2TimesOut, html_route, internalError, page_timeout_message]

/-- Claim C3 amended: if a stage's own blocking wait exceeds its slice of
the remaining budget, the whole readiness wait fails with a timeout (it is
never treated as success and the remaining stages are skipped), but the
exception raised mid-stage carries no stage name, and the failure the
`html` route surfaces to the request is the generic internal error
"Page took too much time to load", which names no stage. -/
theorem stage_timeout_surfaced_generic (behavior : ℕ → ℚ → StageExec)
    (deadline now : ℚ) (name : String) (rest : List String) (i : ℕ) (d : ℚ)
    (page : String)
    (hb : ¬ max 0 (deadline - now) ≤ 0)
    (he : behavior i (max 0 (deadline - now)) = StageExec.timedOut d) :
    runStages behavior deadline (name :: rest) i now =
      ([name], Except.error (PyExc.timeout "")) ∧
    html_route (runStages behavior deadline (name :: rest) i now) page =
      Except.error (internalError page_timeout_message) ∧
    page_timeout_message = "Page took too much time to load" := by
  have h1 := runStages_stage_timeout behavior deadline now name rest i d hb he
  exact ⟨h1, by rw [h1]; rfl, rfl⟩

/-- Witness for `stage_timeout_surfaced_generic`: the readyState wait times
out inside a 5-second budget and the route surfaces the generic error. -/
theorem stage_timeout_surfaced_generic_witness :
    runStages behStage0TimesOut 5 ["readyState"] 0 0 =
      (["readyState"], Except.error (PyExc.timeout "")) ∧
    html_route (runStages behStage0TimesOut 5 ["readyState"] 0 0) "page" =
      Except.error (internalError page_timeout_message) ∧
    page_timeout_message = "Page took too much time to load" :=
  stage_timeout_surfaced_generic behStage0TimesOut 5 0 "readyState" [] 0 1 "page"
    (by norm_num) (by norm_num [behStage0TimesOut])

/-! ## Network-idle quiet window: theorems -/

/-- Unfolding equation for one polling observation of `stop_condition`. -/
theorem runStopCondition_cons (idleS : ℚ) (qs : Option ℚ) (now : ℚ) (inflight : ℕ)
    (rest : List (ℚ × ℕ)) :
    runStopCondition idleS qs ((now, inflight) :: rest) =
      if inflight = 0 then
        if now - qs.getD now ≥ idleS then some now
        else runStopCondition idleS (some (qs.getD now)) rest
      else runStopCondition idleS none rest := rfl

/-- Soundness of the quiet-window loop: if it declares idle at time `t`,
the observation trace splits as `pre ++ win ++ rest` where `win` is a
window of observations that are all zero, ends with the success observation
`(t, 0)`, spans at least `idleS` seconds, and starts fresh: either at a
quiet-window start carried in from the accumulator, or at a zero
observation that is the first observation of the trace or immediately
preceded by a nonzero observation (the reset). -/
theorem runStopCondition_window (idleS : ℚ) (hpos : 0 < idleS) :
    ∀ (samples : List (ℚ × ℕ)) (qs : Option ℚ) (t : ℚ),
      runStopCondition idleS qs samples = some t →
      ∃ pre win rest,
        samples = pre ++ win ++ rest ∧
        (∀ p ∈ win, p.2 = 0) ∧
        (∃ zs2, win = zs2 ++ [(t, 0)]) ∧
        ((pre = [] ∧ ∃ q, qs = some q ∧ idleS ≤ t - q) ∨
         (∃ q zs, win = (q, 0) :: zs ∧ idleS ≤ t - q ∧
           ((pre = [] ∧ qs = none) ∨ ∃ pre2 u m, pre = pre2 ++ [(u, m)] ∧ m ≠ 0))) := by
  intro samples
  induction samples with
  | nil =>
    intro qs t h
    simp [runStopCondition] at h
  | cons p rest ih =>
    obtain ⟨now, inflight⟩ := p
    intro qs t h
    rw [runStopCondition_cons] at h
    by_cases hz : inflight = 0
    · rw [if_pos hz] at h
      subst hz
      by_cases hw : now - qs.getD now ≥ idleS
      · rw [if_pos hw] at h
        have ht : t = now := (Option.some.inj h).symm
        subst ht
        cases qs with
        | none =>
          exfalso
          simp only [Option.getD_none] at hw
          linarith
        | some q =>
          refine ⟨[], [(t, 0)], rest, by simp, by simp, ⟨[], by simp⟩, ?_⟩
          exact Or.inl ⟨rfl, q, rfl, by simpa using hw⟩
      · rw [if_neg hw] at h
        obtain ⟨pre, win, rest2, hsplit, hzero, ⟨zs2, hwlast⟩, hcase⟩ :=
          ih (some (qs.getD now)) t h
        rcases hcase with ⟨hpre, q, hq, hle⟩ | ⟨q, zs, hwin, hle, hsub⟩
        · -- the whole tail seen so far is quiet; extend the window left
          have hq2 : q = qs.getD now := (Option.some.inj hq).symm
          subst hq2
          subst hpre
          cases qs with
          | none =>
            refine ⟨[], (now, 0) :: win, rest2, by simp [hsplit], ?_,
              ⟨(now, 0) :: zs2, by simp [hwlast]⟩, ?_⟩
            · intro p hp
              rcases List.mem_cons.mp hp with h1 | h1
              · simp [h1]
              · exact hzero p h1
            · refine Or.inr ⟨now, win, rfl, ?_, Or.inl ⟨rfl, rfl⟩⟩
              simpa using hle
          | some q0 =>
            refine ⟨[], (now, 0) :: win, rest2, by simp [hsplit], ?_,
              ⟨(now, 0) :: zs2, by simp [hwlast]⟩, ?_⟩
            · intro p hp
              rcases List.mem_cons.mp hp with h1 | h1
              · simp [h1]
              · exact hzero p h1
            · exact Or.inl ⟨rfl, q0, rfl, by simpa using hle⟩
        · rcases hsub with ⟨hpre, hqs⟩ | ⟨pre2, u, m, hpre, hm⟩
          · exact absurd hqs (by simp)
          · refine ⟨(now, 0) :: pre, win, rest2, by simp [hsplit], hzero,
              ⟨zs2, hwlast⟩, ?_⟩
            refine Or.inr ⟨q, zs, hwin, hle, Or.inr ⟨(now, 0) :: pre2, u, m, ?_, hm⟩⟩
            simp [hpre]
    · rw [if_neg hz] at h
      obtain ⟨pre, win, rest2, hsplit, hzero, ⟨zs2, hwlast⟩, hcase⟩ := ih none t h
      rcases hcase with ⟨_, q, hq, _⟩ | ⟨q, zs, hwin, hle, hsub⟩
      · exact absurd hq (by simp)
      · refine ⟨(now, inflight) :: pre, win, rest2, by simp [hsplit], hzero,
          ⟨zs2, hwlast⟩, ?_⟩
        refine Or.inr ⟨q, zs, hwin, hle, Or.inr ?_⟩
        rcases hsub with ⟨hpre, _⟩ | ⟨pre2, u, m, hpre, hm⟩
        · exact ⟨[], now, inflight, by simp [hpre], hz⟩
        · exact ⟨(now, inflight) :: pre2, u, m, by simp [hpre], hm⟩

/-- The first phase of `wait_network_idle` returns exactly the observations
after the first zero observation; every observation before it was nonzero. -/
theorem waitUntilZero_decomp :
    ∀ (samples rest : List (ℚ × ℕ)), waitUntilZero samples = some rest →
      ∃ nz z0, samples = nz ++ (z0, 0) :: rest ∧ (∀ p ∈ nz, p.2 ≠ 0) := by
  intro samples
  induction samples with
  | nil =>
    intro rest h
    simp [waitUntilZero] at h
  | cons p tail ih =>
    obtain ⟨now, inflight⟩ := p
    intro rest h
    by_cases hz : inflight = 0
    · subst hz
      have hr : tail = rest := by simpa [waitUntilZero] using h
      subst hr
      exact ⟨[], now, by simp, by simp⟩
    · have h2 : waitUntilZero tail = some rest := by simpa [waitUntilZero, hz] using h
      obtain ⟨nz, z0, hs, hnz⟩ := ih rest h2
      refine ⟨(now, inflight) :: nz, z0, by simp [hs], ?_⟩
      intro p hp
      rcases List.mem_cons.mp hp with h1 | h1
      · simp [h1, hz]
      · exact hnz p h1

/-- Claim C4: with the default 600 ms quiet window, the network-idle stage
first blocks until the in-flight counter is observed at zero, and it
declares idle at time `t` only when its observations contain a window that
is continuously zero, spans at least 600 ms (`idle_s_default = 3/5` s),
and is fresh: the window starts either at the very first
post-zero observation or right after a nonzero observation — so any
nonzero observation during a quiet window resets the timer, and success
requires a fresh continuous 600 ms of zero in-flight observations. -/
theorem network_idle_fresh_quiet_window (samples : List (ℚ × ℕ)) (t : ℚ)
    (h : wait_network_idle idle_s_default samples = some t) :
    idle_ms_default = 600 ∧ idle_s_default = 3 / 5 ∧
    ∃ nz z0 rest2, samples = nz ++ (z0, 0) :: rest2 ∧ (∀ p ∈ nz, p.2 ≠ 0) ∧
      ∃ pre win rest q zs,
        rest2 = pre ++ win ++ rest ∧
        (∀ p ∈ win, p.2 = 0) ∧
        (∃ zs2, win = zs2 ++ [(t, 0)]) ∧
        win = (q, 0) :: zs ∧
        idle_s_default ≤ t - q ∧
        (pre = [] ∨ ∃ pre2 u m, pre = pre2 ++ [(u, m)] ∧ m ≠ 0) := by
  refine ⟨rfl, by norm_num [idle_s_default, idle_ms_default], ?_⟩
  cases hdz : waitUntilZero samples with
  | none => simp [wait_network_idle, hdz] at h
  | some rest2 =>
    have h2 : runStopCondition idle_s_default none rest2 = some t := by
      simpa [wait_network_idle, hdz] using h
    obtain ⟨nz, z0, hs, hnz⟩ := waitUntilZero_decomp samples rest2 hdz
    have hpos : (0 : ℚ) < idle_s_default := by
      norm_num [idle_s_default, idle_ms_default]
    obtain ⟨pre, win, rest, hsplit, hzero, hlast, hcase⟩ :=
      runStopCondition_window idle_s_default hpos rest2 none t h2
    rcases hcase with ⟨_, q, hq, _⟩ | ⟨q, zs, hwin, hle, hsub⟩
    · exact absurd hq (by simp)
    · refine ⟨nz, z0, rest2, hs, hnz, pre, win, rest, q, zs, hsplit, hzero, hlast,
        hwin, hle, ?_⟩
      rcases hsub with ⟨hpre, _⟩ | hright
      · exact Or.inl hpre
      · exact Or.inr hright

/-- Witness for `network_idle_fresh_quiet_window` on a concrete trace that
goes quiet, sees a new in-flight request after half a second of quiet, and
then stays quiet for a fresh 600 ms. -/
theorem network_idle_fresh_quiet_window_witness :
    idle_ms_default = 600 ∧ idle_s_default = 3 / 5 ∧
    ∃ nz z0 rest2, netSamplesReset = nz ++ (z0, 0) :: rest2 ∧ (∀ p ∈ nz, p.2 ≠ 0) ∧
      ∃ pre win rest q zs,
        rest2 = pre ++ win ++ rest ∧
        (∀ p ∈ win, p.2 = 0) ∧
        (∃ zs2, win = zs2 ++ [((14 : ℚ) / 10, 0)]) ∧
        win = (q, 0) :: zs ∧
        idle_s_default ≤ (14 : ℚ) / 10 - q ∧
        (pre = [] ∨ ∃ pre2 u m, pre = pre2 ++ [(u, m)] ∧ m ≠ 0) :=
  network_idle_fresh_quiet_window netSamplesReset ((14 : ℚ) / 10)
    (by norm_num [wait_network_idle, waitUntilZero, runStopCondition, netSamplesReset,
      idle_s_default, idle_ms_default])

/-! ## Cookie double-navigation, driver creation, teardown, stealth, timeout -/

/-- Claim C5: with a non-empty cookie list, `SeleniumBrowser.get(url)`
issues exactly navigate(url), one add_cookie per cookie in order, a second
navigate to the same url, and only then starts the readiness wait; with no
cookie list (or an empty one) exactly one navigation precedes the
readiness wait. -/
theorem cookie_double_navigation (url : String) (tmo : ℚ) :
    (∀ cs : List (List (String × String)), cs ≠ [] →
      SeleniumBrowser.get (some cs) tmo url =
        DriverCmd.navigate url ::
          (cs.map DriverCmd.add_cookie ++
            [DriverCmd.navigate url, DriverCmd.waitReady tmo])) ∧
    SeleniumBrowser.get none tmo url = [DriverCmd.navigate url, DriverCmd.waitReady tmo] ∧
    SeleniumBrowser.get (some []) tmo url =
      [DriverCmd.navigate url, DriverCmd.waitReady tmo] := by
  refine ⟨?_, rfl, rfl⟩
  intro cs hcs
  have hlen : 0 < cs.length := List.length_pos.mpr hcs
  simp [SeleniumBrowser.get, hlen]

/-- Witness for `cookie_double_navigation` with one concrete cookie. -/
theorem cookie_double_navigation_witness :
    SeleniumBrowser.get (some [[("sessionid", "abc")]]) 15 "https://example.test" =
      DriverCmd.navigate "https://example.test" ::
        ([[("sessionid", "abc")]].map DriverCmd.add_cookie ++
          [DriverCmd.navigate "https://example.test", DriverCmd.waitReady 15]) :=
  (cookie_double_navigation "https://example.test" 15).1 [[("sessionid", "abc")]] (by simp)

/-- Claim C6: creating a session with a truthy (non-empty) header map while
the proxy singleton is absent (never started, or cleared by `close`) or
refers to a stopped server fails with a resource-unavailable error, and the
engine is not launched before that failure (the creation event trace is
empty, so it contains no engine launch). -/
theorem header_injection_fails_without_proxy (headers : Option (List (String × String)))
    (g : Option ProxyServer)
    (hh : headersTruthy headers = true)
    (hg : g = none ∨ ∃ ps, g = some ps ∧ ps.server = none) :
    (∃ msg, HeadlessChrome.create_driver headers g = ([], Except.error (PyExc.other msg)) ∧
      (msg = "proxy server not available" ∨
       msg = "Proxy server not initialized or closed")) ∧
    CreateEvent.engineLaunched ∉ (HeadlessChrome.create_driver headers g).1 := by
  rcases hg with hg | ⟨ps, hg, hps⟩
  · subst hg
    refine ⟨⟨"proxy server not available", ?_, Or.inl rfl⟩, ?_⟩
    · simp [HeadlessChrome.create_driver, hh, get_proxy_server]
    · simp [HeadlessChrome.create_driver, hh, get_proxy_server]
  · subst hg
    have hnc : ps.new_client =
        Except.error (PyExc.other "Proxy server not initialized or closed") := by
      simp [ProxyServer.new_client, hps]
    refine ⟨⟨"Proxy server not initialized or closed", ?_, Or.inr rfl⟩, ?_⟩
    · simp [HeadlessChrome.create_driver, hh, get_proxy_server, hnc]
    · simp [HeadlessChrome.create_driver, hh, get_proxy_server, hnc]

/-- Witness for `header_injection_fails_without_proxy`: one header, proxy
singleton absent. -/
theorem header_injection_fails_without_proxy_witness :
    (∃ msg, HeadlessChrome.create_driver (some [("X-Test", "1")]) none =
        ([], Except.error (PyExc.other msg)) ∧
      (msg = "proxy server not available" ∨
       msg = "Proxy server not initialized or closed")) ∧
    CreateEvent.engineLaunched ∉
      (HeadlessChrome.create_driver (some [("X-Test", "1")]) none).1 :=
  header_injection_fails_without_proxy (some [("X-Test", "1")]) none rfl (Or.inl rfl)

/-- After any number of `close` calls on an already-released browser state,
nothing further happens. -/
theorem closeN_closed (uP uQ : UnderlyingOutcome) :
    ∀ n : ℕ, SeleniumBrowser.closeN uP uQ n ⟨none, none⟩ = (⟨none, none⟩, []) := by
  intro n
  induction n with
  | zero => rfl
  | succ m ih => simp [SeleniumBrowser.closeN, SeleniumBrowser.close, ih]

/-- Claim C7: `close()` is idempotent for the browser session, the proxy
server and the proxy client: the first call marks the resource released
(fields set to `None`), a call on a released resource is a silent no-op
(no effect, no exception), and calling `close()` any `n ≥ 1` times has the
same final state and the same cumulative observable effects as calling it
once. -/
theorem close_idempotent :
    (∀ uP uQ s, (SeleniumBrowser.close uP uQ s).1 = ⟨none, none⟩) ∧
    (∀ uP uQ, SeleniumBrowser.close uP uQ ⟨none, none⟩ = (⟨none, none⟩, [], none)) ∧
    (∀ uP uQ s (n : ℕ), 1 ≤ n →
      SeleniumBrowser.closeN uP uQ n s = SeleniumBrowser.closeN uP uQ 1 s) ∧
    (∀ u s g, ((ProxyServer.close u s g).1).server = none) ∧
    (∀ u g, ProxyServer.close u ⟨none⟩ g = (⟨none⟩, g, [], none)) ∧
    (∀ u s, (ProxyClient.close u s).1 = ⟨none⟩) ∧
    (∀ u, ProxyClient.close u ⟨none⟩ = (⟨none⟩, [], none)) := by
  refine ⟨fun uP uQ s => rfl, fun uP uQ => rfl, ?_, ?_, fun u g => rfl, ?_, fun u => rfl⟩
  · intro uP uQ s n hn
    obtain ⟨m, rfl⟩ : ∃ m, n = m + 1 := ⟨n - 1, by omega⟩
    have hsucc : ∀ (k : ℕ) (s0 : SeleniumBrowser),
        SeleniumBrowser.closeN uP uQ (k + 1) s0 =
          ((SeleniumBrowser.closeN uP uQ k (SeleniumBrowser.close uP uQ s0).1).1,
            (SeleniumBrowser.close uP uQ s0).2.1 ++
              (SeleniumBrowser.closeN uP uQ k (SeleniumBrowser.close uP uQ s0).1).2) :=
      fun k s0 => rfl
    have h1 : (SeleniumBrowser.close uP uQ s).1 = ⟨none, none⟩ := rfl
    rw [hsucc m s, hsucc 0 s, h1, closeN_closed uP uQ m]
    rfl
  · rintro u ⟨server⟩ g
    cases server with
    | none => rfl
    | some v => cases u <;> rfl
  · rintro u ⟨client⟩
    cases client with
    | none => rfl
    | some v => cases u <;> rfl

/-- Witness for `close_idempotent`: three consecutive closes of a live
session equal one close. -/
theorem close_idempotent_witness :
    SeleniumBrowser.closeN UnderlyingOutcome.ok UnderlyingOutcome.ok 3
        ⟨some ⟨some ()⟩, some ()⟩ =
      SeleniumBrowser.closeN UnderlyingOutcome.ok UnderlyingOutcome.ok 1
        ⟨some ⟨some ()⟩, some ()⟩ :=
  close_idempotent.2.2.1 UnderlyingOutcome.ok UnderlyingOutcome.ok
    ⟨some ⟨some ()⟩, some ()⟩ 3 (by norm_num)

/-- Counterexample to claim C8 as stated: an exception from `driver.quit()`
that is not a `WebDriverException` (for example a connection error from the
transport layer) escapes `SeleniumBrowser.close` — it is not swallowed —
although the `finally` clause has still marked the driver released. -/
theorem teardown_error_propagation_cex :
    (SeleniumBrowser.close UnderlyingOutcome.ok
        (UnderlyingOutcome.otherError "connection reset by peer") ⟨none, some ()⟩).2.2 =
      some (PyExc.other "connection reset by peer") ∧
    (SeleniumBrowser.close UnderlyingOutcome.ok
        (UnderlyingOutcome.otherError "connection reset by peer") ⟨none, some ()⟩).1 =
      ⟨none, none⟩ :=
  ⟨rfl, rfl⟩

/-- Claim C8 amended: teardown errors from the proxy client's close and the
proxy server's stop are always swallowed (no exception escapes), and an
engine `WebDriverException` raised by `driver.quit()` is swallowed as well;
only a non-WebDriver exception from `driver.quit()` escapes
`SeleniumBrowser.close`.  In every case — including the escaping one — the
resource is marked released (fields set to `None`) afterwards. -/
theorem teardown_release_guarantees :
    (∀ u s, (ProxyClient.close u s).2.2 = none ∧ (ProxyClient.close u s).1 = ⟨none⟩) ∧
    (∀ u s g, (ProxyServer.close u s g).2.2.2 = none ∧
      ((ProxyServer.close u s g).1).server = none) ∧
    (∀ uP uQ s, (SeleniumBrowser.close uP uQ s).1 = ⟨none, none⟩) ∧
    (∀ uP s m,
      (SeleniumBrowser.close uP (UnderlyingOutcome.webdriverError m) s).2.2 = none) ∧
    (∀ uP uQ s, (∀ m, uQ ≠ UnderlyingOutcome.otherError m) →
      (SeleniumBrowser.close uP uQ s).2.2 = none) := by
  refine ⟨?_, ?_, fun uP uQ s => rfl, ?_, ?_⟩
  · rintro u ⟨client⟩
    cases client with
    | none => exact ⟨rfl, rfl⟩
    | some v => cases u <;> exact ⟨rfl, rfl⟩
  · rintro u ⟨server⟩ g
    cases server with
    | none => exact ⟨rfl, rfl⟩
    | some v => cases u <;> exact ⟨rfl, rfl⟩
  · rintro uP ⟨p, dr⟩ _m
    cases dr <;> rfl
  · rintro uP uQ ⟨p, dr⟩ hne
    cases dr with
    | none => rfl
    | some v =>
      cases uQ with
      | ok => rfl
      | webdriverError m => rfl
      | otherError m => exact absurd rfl (hne m)

/-- Witness for `teardown_release_guarantees` on a live session whose quit
succeeds. -/
theorem teardown_release_guarantees_witness :
    (SeleniumBrowser.close UnderlyingOutcome.ok UnderlyingOutcome.ok
        ⟨some ⟨some ()⟩, some ()⟩).2.2 = none :=
  teardown_release_guarantees.2.2.2.2 UnderlyingOutcome.ok UnderlyingOutcome.ok
    ⟨some ⟨some ()⟩, some ()⟩ (fun _m h => UnderlyingOutcome.noConfusion h)

/-- Counterexample to claim C9 as stated: with a caller-supplied
Accept-Language header `fr-FR,fr;q=0.9`, the protocol-level override
prefers the caller value while the injected new-document script still
reports the fixed `pt-BR` language list, so the script-visible and
protocol-level identity values disagree. -/
theorem stealth_identity_inconsistency_cex :
    (stealth_cdp_override (some [("Accept-Language", "fr-FR,fr;q=0.9")])
        "Mozilla/5.0").acceptLanguage = "fr-FR,fr;q=0.9" ∧
    accept_language_codes "fr-FR,fr;q=0.9" = ["fr-FR", "fr"] ∧
    stealth_js_languages = ["pt-BR", "pt", "en-US", "en"] ∧
    identity_consistent (stealth_cdp_override (some [("Accept-Language", "fr-FR,fr;q=0.9")])
        "Mozilla/5.0") = false :=
  ⟨rfl, rfl, rfl, rfl⟩

/-- A falsy optional string (absent or empty) makes Python `or` fall back
to its default. -/
theorem pyOrStr_falsy (x : Option String) (d : String) (h : pyTruthyStr x = false) :
    pyOrStr x d = d := by
  cases x with
  | none => rfl
  | some s =>
    have hs : s = "" := by simpa [pyTruthyStr] using h
    simp [pyOrStr, hs]

/-- Claim C9 amended: when the caller supplies neither a (non-empty)
User-Agent nor a (non-empty) Accept-Language header, the protocol-level
overrides fall back to the fixed defaults, which agree with the identity
the injected script reports (language codes and platform match); when the
caller supplies these headers, the protocol-level overrides prefer the
caller values (and the platform override is omitted when a caller
User-Agent is in effect), but the injected script still reports the fixed
defaults, so the script-visible and protocol-level values need not agree. -/
theorem stealth_identity_amended (headers : Option (List (String × String)))
    (navUA : String) :
    ((pyTruthyStr (stealth_header_get headers "User-Agent") = false ∧
      pyTruthyStr (stealth_header_get headers "Accept-Language") = false) →
      (stealth_cdp_override headers navUA).userAgent = navUA ∧
      (stealth_cdp_override headers navUA).acceptLanguage = default_accept_language ∧
      (stealth_cdp_override headers navUA).platform = some stealth_js_platform ∧
      identity_consistent (stealth_cdp_override headers navUA) = true) ∧
    (∀ s, stealth_header_get headers "User-Agent" = some s → s ≠ "" →
      (stealth_cdp_override headers navUA).userAgent = s ∧
      (stealth_cdp_override headers navUA).platform = none) ∧
    (∀ s, stealth_header_get headers "Accept-Language" = some s → s ≠ "" →
      (stealth_cdp_override headers navUA).acceptLanguage = s) := by
  refine ⟨?_, ?_, ?_⟩
  · rintro ⟨hua, hal⟩
    refine ⟨?_, ?_, ?_, ?_⟩
    · simp [stealth_cdp_override, pyOrStr_falsy _ _ hua]
    · simp [stealth_cdp_override, pyOrStr_falsy _ _ hal]
    · simp [stealth_cdp_override, hua, stealth_js_platform]
    · simp only [identity_consistent, stealth_cdp_override, hua,
        pyOrStr_falsy _ _ hal]
      rfl
  · intro s hs hne
    constructor
    · simp [stealth_cdp_override, hs, pyOrStr, hne]
    · simp [stealth_cdp_override, hs, pyTruthyStr, hne]
  · intro s hs hne
    simp [stealth_cdp_override, hs, pyOrStr, hne]

/-- Witness for `stealth_identity_amended`: no headers supplied. -/
theorem stealth_identity_amended_witness :
    (stealth_cdp_override none "Mozilla/5.0").userAgent = "Mozilla/5.0" ∧
    (stealth_cdp_override none "Mozilla/5.0").acceptLanguage = default_accept_language ∧
    (stealth_cdp_override none "Mozilla/5.0").platform = some stealth_js_platform ∧
    identity_consistent (stealth_cdp_override none "Mozilla/5.0") = true :=
  (stealth_identity_amended none "Mozilla/5.0").1 ⟨rfl, rfl⟩

/-- Claim C10: a falsy timeout override (`None`, or `0`/`0.0`) makes the
session budget fall back to the process-wide default `PAGELOAD_TIMEOUT`
(15 seconds when the variable is unset): the caller cannot obtain a
zero-second readiness budget through the timeout parameter (whenever the
default is nonzero, the effective timeout for a falsy override is
nonzero), while any nonzero override is used as given. -/
theorem falsy_timeout_uses_default (env : Option ℕ) (t : ℚ)
    (ht : t ≠ 0) (hd : DEFAULT_TIMEOUT env ≠ 0) :
    SeleniumBrowser.init_timeout none ((DEFAULT_TIMEOUT env : ℕ) : ℚ) =
      ((DEFAULT_TIMEOUT env : ℕ) : ℚ) ∧
    SeleniumBrowser.init_timeout (some 0) ((DEFAULT_TIMEOUT env : ℕ) : ℚ) =
      ((DEFAULT_TIMEOUT env : ℕ) : ℚ) ∧
    SeleniumBrowser.init_timeout (some t) ((DEFAULT_TIMEOUT env : ℕ) : ℚ) = t ∧
    SeleniumBrowser.init_timeout (some 0) ((DEFAULT_TIMEOUT env : ℕ) : ℚ) ≠ 0 ∧
    DEFAULT_TIMEOUT none = 15 := by
  refine ⟨rfl, by simp [SeleniumBrowser.init_timeout, pyOrQ], ?_, ?_, rfl⟩
  · simp [SeleniumBrowser.init_timeout, pyOrQ, ht]
  · simp only [SeleniumBrowser.init_timeout, pyOrQ, if_pos rfl]
    exact_mod_cast hd

/-- Witness for `falsy_timeout_uses_default`: unset environment, override 5. -/
theorem falsy_timeout_uses_default_witness :
    SeleniumBrowser.init_timeout none ((DEFAULT_TIMEOUT none : ℕ) : ℚ) =
      ((DEFAULT_TIMEOUT none : ℕ) : ℚ) ∧
    SeleniumBrowser.init_timeout (some 0) ((DEFAULT_TIMEOUT none : ℕ) : ℚ) =
      ((DEFAULT_TIMEOUT none : ℕ) : ℚ) ∧
    SeleniumBrowser.init_timeout (some 5) ((DEFAULT_TIMEOUT none : ℕ) : ℚ) = 5 ∧
    SeleniumBrowser.init_timeout (some 0) ((DEFAULT_TIMEOUT none : ℕ) : ℚ) ≠ 0 ∧
    DEFAULT_TIMEOUT none = 15 :=
  falsy_timeout_uses_default none 5 (by norm_num) (by norm_num [DEFAULT_TIMEOUT])
